import Mathlib

/-!
Verification development for the LinkedIn connection/referral automation
script (main.py). The script drives a browser through login-state
detection, login, a company-scoped people search with a first-degree
filter, an extraction pass over rendered result cards, and a per-profile
message dispatch loop. Page interactions are embedded as explicit page
state: each probe or read is recorded as the value it returns, or as the
exception it raises, on the page as it stands at that moment.
-/

set_option autoImplicit false

namespace LinkedInBot

/-! ## String containment, the Python `in` operator on strings -/

/-- Decides whether the second list is an initial segment of the first
argument list, character by character. -/
def listStarts : List Char → List Char → Bool
  | [], _ => true
  | _ :: _, [] => false
  | a :: as, b :: bs => a == b && listStarts as bs

/-- Decides whether the pattern occurs as a contiguous sublist, checking
for a match at every suffix. -/
def listHasSub (pat : List Char) : List Char → Bool
  | [] => listStarts pat []
  | b :: bs => listStarts pat (b :: bs) || listHasSub pat bs

/-- Embedding of the Python expression `pat in s` on strings: substring
containment. -/
def strContains (s pat : String) : Bool :=
  listHasSub pat.toList s.toList

/-! ## SessionStateDetector: is_logged_in (main.py lines 17 to 53)

The page state a detection call observes: the current URL, and what each
of the two logged-out probes reports when evaluated on this unchanged
page. `Except.error ()` models the probe raising (element absent, wait
exceeded, strict-mode violation); `Except.ok b` models it resolving to
visibility `b` within its bounded wait. -/

structure DetectPage where
  url : String
  signInVisible : Except Unit Bool
  joinNowVisible : Except Unit Bool

/-- The two logged-out probes of is_logged_in, in source order. -/
inductive ProbeStep where
  | signIn : ProbeStep
  | joinNow : ProbeStep
deriving DecidableEq

/-- Embedding of is_logged_in, instrumented with the list of probes the
call actually evaluates. The source first short-circuits on `"/feed" in
page.url`; otherwise it evaluates `sign_in_button.is_visible(...) or
join_now_link.is_visible(...)` inside a try, left to right with Python
or-short-circuiting: an exception from either probe is caught and falls
through to the fallback `return True`, and the join-now probe is only
evaluated when the sign-in probe resolves to not visible. -/
def is_logged_inT (p : DetectPage) : Bool × List ProbeStep :=
  if strContains p.url "/feed" = true then
    (true, [])
  else
    match p.signInVisible with
    | Except.error _ => (true, [ProbeStep.signIn])
    | Except.ok signInVis =>
      if signInVis = true then
        (false, [ProbeStep.signIn])
      else
        match p.joinNowVisible with
        | Except.error _ => (true, [ProbeStep.signIn, ProbeStep.joinNow])
        | Except.ok joinVis =>
          if joinVis = true then
            (false, [ProbeStep.signIn, ProbeStep.joinNow])
          else
            (true, [ProbeStep.signIn, ProbeStep.joinNow])

/-- The boolean result of is_logged_in: True means Authenticated. -/
def is_logged_in (p : DetectPage) : Bool :=
  (is_logged_inT p).1

/-- Two successive is_logged_in calls against one unchanged page state. -/
def detect_twice (p : DetectPage) : Bool × Bool :=
  (is_logged_in p, is_logged_in p)

/-! ## ProfileExtractor: people_search (main.py lines 146 to 166)

One rendered result card, as the extraction pass observes it. The alt
read (`img.get_attribute("alt")`) either raises (`Except.error ()`, for
example the image element is absent and the wait is exceeded) or returns
the Python value: `none` when the element has no alt attribute, `some s`
for the attribute text, which may be the empty string. The status read
(`span.inner_text()`) either raises or returns the (possibly empty) text;
the source awaits inner_text twice in one condition, and on an unchanged
card both awaits return this same value. -/

structure Card where
  alt : Except Unit (Option String)
  statusText : Except Unit String

/-- Embedding of the per-card loop of people_search. For each card, in
source order: read the alt attribute, then evaluate the condition
`span.inner_text() and "Status" in span.inner_text()` (Python truthiness
of a string is non-emptiness) and append the raw name on success; any
exception inside the loop body hits `except Exception: continue` and
skips just that card. The returned list keeps card enumeration order. -/
def people_search : List Card → List (Option String)
  | [] => []
  | c :: rest =>
    match c.alt with
    | Except.error _ => people_search rest
    | Except.ok name =>
      match c.statusText with
      | Except.error _ => people_search rest
      | Except.ok txt =>
        if (!(txt == "") && strContains txt "Status") = true then
          name :: people_search rest
        else
          people_search rest

/-- Modelled from the spec: a card qualifies when its reads succeed and
its status text is non-empty and contains the substring "Status". -/
def specQualifies (c : Card) : Bool :=
  match c.alt, c.statusText with
  | Except.ok _, Except.ok txt => !(txt == "") && strContains txt "Status"
  | _, _ => false

/-- Modelled from the spec: the name a qualifying card contributes, the
alt attribute value exactly as read. -/
def specName (c : Card) : Option String :=
  match c.alt with
  | Except.ok n => n
  | Except.error _ => none

/-- Modelled from the spec: the extraction result as two explicit phases,
filter the qualifying cards in render order, then take their names. -/
def specExtract (cards : List Card) : List (Option String) :=
  (cards.filter specQualifies).map specName

/-! ## ActionDispatcher and the dispatch loop (main.py lines 121 to 123
and 194 to 200) -/

/-- Whether an Except value is a success. -/
def exceptIsOk {α : Type} : Except Unit α → Bool
  | Except.ok _ => true
  | Except.error _ => false

/-- Embedding of one people_message call. The call always happens; its
body builds the accessible name `"Message " + person` and clicks the
exact-name button. On a closed browser every page operation raises; with
`person = None` the string concatenation raises before any page
operation; otherwise, with the browser open, the click on the rendered
button succeeds and we record the accessible name it targeted. -/
def people_messageM (browserOpen : Bool) (person : Option String) :
    Except Unit String :=
  if browserOpen = true then
    match person with
    | none => Except.error ()
    | some name => Except.ok ("Message " ++ name)
  else
    Except.error ()

/-- Outcome of the dispatch loop: how many times people_message was
invoked, which message buttons were successfully clicked (in order), and
whether the loop was aborted by an uncaught exception. -/
structure LoopOutcome where
  calls : Nat
  clicked : List String
  aborted : Bool

/-- Embedding of the `for person in person_found:` loop of
main_demonstration. Each iteration calls people_message, then prints,
then `page.pause()`, then `browser.close()` — the pause and close are
inside the loop in the source, so after the first successful dispatch
every later iteration runs against a closed browser and its
people_message call raises, aborting the loop. -/
def dispatch_loop : List (Option String) → Bool → LoopOutcome
  | [], _ => ⟨0, [], false⟩
  | person :: rest, browserOpen =>
    match people_messageM browserOpen person with
    | Except.error _ => ⟨1, [], true⟩
    | Except.ok btn =>
      let r := dispatch_loop rest false
      ⟨r.calls + 1, btn :: r.clicked, r.aborted⟩

/-- The dispatch phase of main_demonstration, entered with the browser
open. -/
def main_dispatch (person_found : List (Option String)) : LoopOutcome :=
  dispatch_loop person_found true

/-! ## message_person (main.py lines 170 to 174) -/

/-- Embedding of the Python unpacking `name, link = element` for one
element of the list message_person iterates. `None` is not iterable and
raises; a string unpacks into characters and succeeds exactly when it has
exactly two of them, binding name to the first and link to the second. -/
def unpack2 : Option String → Except Unit (String × String)
  | none => Except.error ()
  | some s =>
    match s.toList with
    | [a, b] => Except.ok (String.mk [a], String.mk [b])
    | _ => Except.error ()

/-- Embedding of message_person: iterate the input, unpacking each
element as a (name, link) pair and printing the name; the first element
that fails to unpack raises out of the function. Returns the processed
names on full success. -/
def message_person : List (Option String) → Except Unit (List String)
  | [] => Except.ok []
  | e :: rest =>
    match unpack2 e with
    | Except.error u => Except.error u
    | Except.ok pair =>
      match message_person rest with
      | Except.error u => Except.error u
      | Except.ok names => Except.ok (pair.1 :: names)

/-! ## AuthenticationFlow: login (main.py lines 56 to 105)

The environment a login call runs against: for each page interaction of
the sequence, whether it succeeds or raises. `gotoOk` is the initial
`page.goto` to the login URL; `fieldReady` the bounded
`email_field.wait_for(timeout=10000)`; `fillEmailOk` and
`fillPasswordOk` the two fills; `clickOk` the sign-in click;
`messagingVisible` the bounded 60s `expect(messaging_link)
.to_be_visible` success criterion. -/

structure LoginEnv where
  gotoOk : Bool
  fieldReady : Bool
  fillEmailOk : Bool
  fillPasswordOk : Bool
  clickOk : Bool
  messagingVisible : Bool

/-- Observable outcome of a login call: `returned = some b` when the
function returns the boolean b, `none` when an exception escapes it;
the screenshot paths written; whether `page.pause()` was reached; and
the lines printed, in order. -/
structure LoginResult where
  returned : Option Bool
  screenshots : List String
  paused : Bool
  logs : List String

/-- The except-branch of login: print the error banner (the exception
text the source interpolates comes from the page driver — a selector or
timeout description, never a credential value), write the screenshot to
the fixed path login_error.png, print the saved-path line, pause for the
operator, and return False. -/
def loginFail (logsSoFar : List String) : LoginResult :=
  { returned := some false
    screenshots := ["login_error.png"]
    paused := true
    logs := logsSoFar ++
      ["ERROR: Login attempt failed.",
       "Check the screenshot and error message below to debug.",
       "DEBUG: The specific error was: <driver exception text>",
       "A screenshot has been saved to login_error.png"] }

/-- Embedding of login. The navigation print and `page.goto` come before
the try block in the source, so a goto exception escapes uncaught with
nothing written; every later step sits inside the single try whose
handler is loginFail. Each progress line is printed before the step it
announces, so a failing fill still leaves its announcement (including
the full email on the `INFO: Filling out email:` line) in the log. -/
def login (env : LoginEnv) (email secret : String) : LoginResult :=
  let l0 := ["INFO: Navigating to LinkedIn login page..."]
  if env.gotoOk = false then
    { returned := none, screenshots := [], paused := false, logs := l0 }
  else
    let l1 := l0 ++ ["INFO: Locating the email field using its ID..."]
    if env.fieldReady = false then
      loginFail l1
    else
      let l2 := l1 ++ ["INFO: Filling out email: " ++ email]
      if env.fillEmailOk = false then
        loginFail l2
      else
        let l3 := l2 ++ ["INFO: Locating and filling password field..."]
        if env.fillPasswordOk = false then
          loginFail l3
        else
          let l4 := l3 ++ ["INFO: Clicking Sign in..."]
          if env.clickOk = false then
            loginFail l4
          else
            let l5 := l4 ++ ["INFO: Waiting for login confirmation..."]
            if env.messagingVisible = false then
              loginFail l5
            else
              { returned := some true
                screenshots := []
                paused := false
                logs := l5 ++ ["SUCCESS: Login successful!"] }

/-! ## Theorems about SessionStateDetector -/

/-- C5: for every page whose current URL contains "/feed", is_logged_in
returns True immediately and its probe trace is empty — neither the
sign-in probe nor the join-now probe is evaluated. -/
theorem C5_feed_short_circuit (p : DetectPage)
    (h : strContains p.url "/feed" = true) :
    is_logged_inT p = (true, []) := by
  unfold is_logged_inT
  rw [h]
  simp

/-- Witness for C5 at a concrete feed page, with a visible sign-in probe
on the page to show it is nevertheless never consulted. -/
theorem C5_witness :
    strContains "https://www.linkedin.com/feed/" "/feed" = true ∧
    is_logged_inT ⟨"https://www.linkedin.com/feed/", Except.ok true,
      Except.ok true⟩ = (true, []) :=
  ⟨by decide,
   C5_feed_short_circuit
     ⟨"https://www.linkedin.com/feed/", Except.ok true, Except.ok true⟩
     (by decide)⟩

/-- C6 counterexample: a page off the feed on which the join-now probe
resolves to visible within its bound, but the sign-in probe raises.
The claim demands Unauthenticated (False); the code catches the sign-in
exception before the join-now probe is ever evaluated and returns True. -/
theorem C6_probe_raise_masks_join_now :
    strContains "https://www.linkedin.com/login" "/feed" = false ∧
    (⟨"https://www.linkedin.com/login", Except.error (),
        Except.ok true⟩ : DetectPage).joinNowVisible = Except.ok true ∧
    is_logged_in ⟨"https://www.linkedin.com/login", Except.error (),
        Except.ok true⟩ = true :=
  ⟨by decide, rfl, rfl⟩

/-- C6 amended: for every page off the feed URL, if the sign-in probe
resolves to visible, or the sign-in probe resolves to not visible and the
join-now probe resolves to visible, is_logged_in returns Unauthenticated
(False). The amendment accounts for left-to-right evaluation inside the
try: a raise from the sign-in probe preempts the join-now probe and the
fail-open default returns True instead. -/
theorem C6_visible_affordance_logged_out (p : DetectPage)
    (hu : strContains p.url "/feed" = false)
    (h : p.signInVisible = Except.ok true ∨
         (p.signInVisible = Except.ok false ∧
          p.joinNowVisible = Except.ok true)) :
    is_logged_in p = false := by
  rcases p with ⟨u, s, j⟩
  rcases h with h | ⟨h1, h2⟩
  · simp only at h hu
    subst h
    simp [is_logged_in, is_logged_inT, hu]
  · simp only at h1 h2 hu
    subst h1
    subst h2
    simp [is_logged_in, is_logged_inT, hu]

/-- Witness for C6 amended at a concrete logged-out page. -/
theorem C6_witness :
    strContains "https://www.linkedin.com/home" "/feed" = false ∧
    is_logged_in ⟨"https://www.linkedin.com/home", Except.ok true,
      Except.ok false⟩ = false :=
  ⟨by decide,
   C6_visible_affordance_logged_out
     ⟨"https://www.linkedin.com/home", Except.ok true, Except.ok false⟩
     (by decide) (Or.inl rfl)⟩

/-- C7: for every page off the feed URL, if the probing executed by
is_logged_in raises (the sign-in probe raises, or it resolves to not
visible and the join-now probe raises), or both probes resolve to not
visible, then is_logged_in returns Authenticated (True); the probe
exception is consumed by the handler and a boolean is always returned. -/
theorem C7_fail_open (p : DetectPage)
    (hu : strContains p.url "/feed" = false)
    (h : p.signInVisible = Except.error () ∨
         (p.signInVisible = Except.ok false ∧
          (p.joinNowVisible = Except.error () ∨
           p.joinNowVisible = Except.ok false))) :
    is_logged_in p = true := by
  rcases p with ⟨u, s, j⟩
  rcases h with h | ⟨h1, h2⟩
  · simp only at h hu
    subst h
    simp [is_logged_in, is_logged_inT, hu]
  · simp only at h1 h2 hu
    subst h1
    rcases h2 with h2 | h2 <;>
      · subst h2
        simp [is_logged_in, is_logged_inT, hu]

/-- Witness for C7 at a concrete ambiguous page whose sign-in probe
raises. -/
theorem C7_witness :
    strContains "https://www.linkedin.com/home" "/feed" = false ∧
    is_logged_in ⟨"https://www.linkedin.com/home", Except.error (),
      Except.ok true⟩ = true :=
  ⟨by decide,
   C7_fail_open
     ⟨"https://www.linkedin.com/home", Except.error (), Except.ok true⟩
     (by decide) (Or.inl rfl)⟩

/-- C9: two is_logged_in calls against one unchanged page state return
the same boolean: the detector is a pure function of the page, every
probe outcome being fixed by the unchanged page. -/
theorem C9_detect_idempotent (p : DetectPage) :
    (detect_twice p).1 = (detect_twice p).2 :=
  rfl

/-! ## Theorems about ProfileExtractor and the dispatch loop -/

/-- C1 counterexample: two cards whose status text passes the check but
whose alt attribute reads back as the empty string, respectively as
absent (None). people_search appends the raw value in both cases, so the
result contains an entry with an empty name and an entry with a missing
name — the claim says such cards are dropped, never included. -/
theorem C1_empty_name_included :
    people_search [⟨Except.ok (some ""), Except.ok "Status is online"⟩] =
      [some ""] ∧
    people_search [⟨Except.ok none, Except.ok "Status is reachable"⟩] =
      [none] :=
  ⟨rfl, rfl⟩

/-- C1 amended: people_search returns, in render order, exactly the
names of the cards whose two reads succeed and whose status text is
non-empty and contains "Status"; each returned entry is the alt value
exactly as read — a card whose read raises is dropped, while a readable
empty or absent alt is included with that empty or missing name. Stated
as a refinement: the source loop equals the spec-worded two-phase
filter-then-name extraction. -/
theorem C1_extract_refines_spec (cards : List Card) :
    people_search cards = specExtract cards := by
  induction cards with
  | nil => rfl
  | cons c rest ih =>
    rcases c with ⟨alt, statusText⟩
    rcases alt with u | name
    · simp [people_search, specExtract, specQualifies, List.filter_cons, ih]
    · rcases statusText with u | txt
      · simp [people_search, specExtract, specQualifies, List.filter_cons, ih]
      · by_cases hc : (!(txt == "") && strContains txt "Status") = true
        · simp [people_search, specExtract, specQualifies, specName,
            List.filter_cons, hc, ih]
        · simp [people_search, specExtract, specQualifies, List.filter_cons,
            hc, ih]

/-- C8: a card whose alt read raises, or whose status read raises, is
skipped and the pass continues over every remaining card unchanged — the
result over any surrounding cards equals the result with the failing
card deleted, and no exception leaves people_search. -/
theorem C8_card_failure_isolated (pre post : List Card) (c : Card)
    (h : c.alt = Except.error () ∨ c.statusText = Except.error ()) :
    people_search (pre ++ c :: post) = people_search (pre ++ post) := by
  induction pre with
  | nil =>
    rcases c with ⟨alt, statusText⟩
    rcases h with h | h
    · simp only at h
      subst h
      rfl
    · simp only at h
      subst h
      rcases alt with u | name <;> rfl
  | cons d rest ih =>
    rcases d with ⟨da, dst⟩
    rcases da with u | name
    · simpa [people_search] using ih
    · rcases dst with u | txt
      · simpa [people_search] using ih
      · by_cases hc : (!(txt == "") && strContains txt "Status") = true
        · simp [people_search, hc, ih]
        · simp [people_search, hc, ih]

/-- Witness for C8: a card whose alt read raises, sitting between two
healthy cards, is skipped and the pass yields what it yields without it. -/
theorem C8_witness :
    ((⟨Except.error (), Except.ok "Status is online"⟩ : Card).alt =
        Except.error () ∨
      (⟨Except.error (), Except.ok "Status is online"⟩ : Card).statusText =
        Except.error ()) ∧
    people_search
        ([⟨Except.ok (some "Alice A"), Except.ok "Status is online"⟩] ++
          (⟨Except.error (), Except.ok "Status is online"⟩ : Card) ::
          [⟨Except.ok (some "Carol C"), Except.ok "Status is away"⟩]) =
      people_search
        ([⟨Except.ok (some "Alice A"), Except.ok "Status is online"⟩] ++
          [⟨Except.ok (some "Carol C"), Except.ok "Status is away"⟩]) :=
  ⟨Or.inl rfl,
   C8_card_failure_isolated
     [⟨Except.ok (some "Alice A"), Except.ok "Status is online"⟩]
     [⟨Except.ok (some "Carol C"), Except.ok "Status is away"⟩]
     ⟨Except.error (), Except.ok "Status is online"⟩ (Or.inl rfl)⟩

/-- C2, evaluating the code at the failing input: three rendered cards
all carrying an active status, so people_search returns three names —
three profiles with hasActiveStatus true. The dispatch loop then makes
only two people_message calls: the first dispatch succeeds, but the
pause and browser close sitting inside the loop body close the browser,
so the second call raises on the closed browser, aborts the loop, and
the third profile is never dispatched. The claim (and the spec) require
one dispatch per active profile, three here. -/
theorem C2_dispatch_aborts_after_first :
    people_search
        [⟨Except.ok (some "Alice A"), Except.ok "Status is online"⟩,
         ⟨Except.ok (some "Bob B"), Except.ok "Status is away"⟩,
         ⟨Except.ok (some "Carol C"), Except.ok "Status is busy"⟩] =
      [some "Alice A", some "Bob B", some "Carol C"] ∧
    main_dispatch
        (people_search
          [⟨Except.ok (some "Alice A"), Except.ok "Status is online"⟩,
           ⟨Except.ok (some "Bob B"), Except.ok "Status is away"⟩,
           ⟨Except.ok (some "Carol C"), Except.ok "Status is busy"⟩]) =
      ⟨2, ["Message Alice A"], true⟩ :=
  ⟨rfl, rfl⟩

/-! ## Theorems about the people_search / message_person shape mismatch -/

/-- C10 counterexample: a qualifying card whose alt text happens to be
the two-character string "ab". people_search returns the non-empty list
[some "ab"], and message_person, far from raising, unpacks the
two-character string into name "a" and link "b" and finishes cleanly —
so it is not true that every non-empty extraction result makes
message_person raise an unpacking error. -/
theorem C10_two_char_name_unpacks :
    people_search [⟨Except.ok (some "ab"), Except.ok "Status is online"⟩] =
      [some "ab"] ∧
    message_person
        (people_search
          [⟨Except.ok (some "ab"), Except.ok "Status is online"⟩]) =
      Except.ok ["a"] :=
  ⟨rfl, rfl⟩

/-- Helper for C10: an element that fails to unpack anywhere in the list
makes message_person raise, since the loop unpacks every element up to
the first failure. -/
theorem message_person_fails_of_bad_elem (l : List (Option String))
    (h : ∃ e ∈ l, exceptIsOk (unpack2 e) = false) :
    exceptIsOk (message_person l) = false := by
  induction l with
  | nil => simp at h
  | cons a rest ih =>
    rcases h with ⟨e, he, hbad⟩
    rcases List.mem_cons.mp he with rfl | hmem
    · cases hu : unpack2 e with
      | error u => simp [message_person, hu, exceptIsOk]
      | ok pair =>
        rw [hu] at hbad
        simp [exceptIsOk] at hbad
    · have hr := ih ⟨e, hmem, hbad⟩
      cases hu : unpack2 a with
      | error u => simp [message_person, hu, exceptIsOk]
      | ok pair =>
        cases hm : message_person rest with
        | error u => simp [message_person, hu, hm, exceptIsOk]
        | ok names =>
          rw [hm] at hr
          simp [exceptIsOk] at hr

/-- C10 amended: message_person unpacks each element of its input as a
(name, link) pair, which raises for any entry that is not a string of
exactly two characters — in particular for a missing name (None) and for
every realistic display name. Hence whenever a people_search result
contains such an entry, applying message_person to it raises an
unpacking error; no link field is ever populated from card data (when
unpacking does succeed, the link is just the second character of the
name). -/
theorem C10_shape_mismatch (cards : List Card)
    (h : ∃ e ∈ people_search cards, exceptIsOk (unpack2 e) = false) :
    exceptIsOk (message_person (people_search cards)) = false :=
  message_person_fails_of_bad_elem (people_search cards) h

/-- Witness for C10 amended at a concrete card with a realistic
display name, which does not unpack as a pair. -/
theorem C10_witness :
    (∃ e ∈ people_search
        [⟨Except.ok (some "Alice A"), Except.ok "Status is online"⟩],
      exceptIsOk (unpack2 e) = false) ∧
    exceptIsOk
        (message_person
          (people_search
            [⟨Except.ok (some "Alice A"), Except.ok "Status is online"⟩])) =
      false :=
  ⟨⟨some "Alice A", by decide⟩,
   C10_shape_mismatch
     [⟨Except.ok (some "Alice A"), Except.ok "Status is online"⟩]
     ⟨some "Alice A", by decide⟩⟩

/-! ## Theorems about AuthenticationFlow -/

/-- C3 counterexample: an execution where the initial navigation to the
login page raises. `page.goto` sits before the try block in the source,
so the exception escapes login uncaught: no boolean is returned, no
screenshot is written, no pause happens — against the claim that any
exception during the login sequence is caught, screenshotted to
login_error.png, paused on, and answered with False. -/
theorem C3_goto_failure_uncaught :
    login ⟨false, true, true, true, true, true⟩ "user@example.com" "pw" =
      ⟨none, [], false, ["INFO: Navigating to LinkedIn login page..."]⟩ :=
  rfl

/-- C3 amended: any exception raised after the initial navigation — the
bounded wait for the email field, either credential fill, the sign-in
click, or the 60s bound on the Messaging link becoming visible — is
caught once at the outer boundary, and login then writes the screenshot
to the fixed path login_error.png, pauses for the operator, and returns
False; an exception raised by the initial navigation itself propagates
uncaught with no screenshot. In particular the claim scenario holds: the
fills succeed but Messaging never appears, and login returns False with
the screenshot written. -/
theorem C3_post_nav_failure_caught (env : LoginEnv) (email secret : String)
    (hg : env.gotoOk = true)
    (hf : (env.fieldReady && env.fillEmailOk && env.fillPasswordOk &&
           env.clickOk && env.messagingVisible) = false) :
    (login env email secret).returned = some false ∧
    (login env email secret).screenshots = ["login_error.png"] ∧
    (login env email secret).paused = true := by
  rcases env with ⟨g, fr, fe, fp, ck, mv⟩
  simp only at hg hf
  subst hg
  cases fr <;> cases fe <;> cases fp <;> cases ck <;> cases mv <;>
    simp_all [login, loginFail]

/-- Witness for C3 amended at the claim scenario: navigation, field
wait, both fills and the click succeed, but the Messaging link never
becomes visible within the bound. -/
theorem C3_witness :
    (⟨true, true, true, true, true, false⟩ : LoginEnv).gotoOk = true ∧
    (login ⟨true, true, true, true, true, false⟩ "user@example.com"
        "pw").returned = some false ∧
    (login ⟨true, true, true, true, true, false⟩ "user@example.com"
        "pw").screenshots = ["login_error.png"] ∧
    (login ⟨true, true, true, true, true, false⟩ "user@example.com"
        "pw").paused = true :=
  ⟨rfl,
   C3_post_nav_failure_caught ⟨true, true, true, true, true, false⟩
     "user@example.com" "pw" rfl rfl⟩

/-- C4 counterexample: on a successful login run, the progress line
printed just before the email fill contains the identifier in full — the
claim that neither credential is ever printed in full fails for the
identifier. -/
theorem C4_identifier_logged :
    ("INFO: Filling out email: " ++ "alice@example.com") ∈
      (login ⟨true, true, true, true, true, true⟩ "alice@example.com"
        "hunter2").logs := by
  decide

/-- C4 amended: the secret is never logged — every observable of login
(return value, screenshots, pause, and the full log output) is
independent of the secret value, which flows only into the password
fill on the page; the identifier, however, is printed in full by the
email progress line. Stated as noninterference in the secret. -/
theorem C4_secret_noninterference (env : LoginEnv) (email s1 s2 : String) :
    login env email s1 = login env email s2 :=
  rfl

end LinkedInBot
